import Mathlib

/- Shallow embedding of the content-selection and publishing pipeline of the
   repository's two script revisions, `plan.py` and `viral_bot.py`.  Pure data
   flow is embedded directly; network and file effects are represented by
   explicit parameters (the outcome of each HTTP call, the stream of random
   draws) and explicit result components (the data written to `history.json`). -/

/-- A record of the persisted history file `history.json`: the dictionaries
built by `save_history`.  The `title` and `web_link` fields are optional
because `is_already_posted` reads them with `dict.get`, which yields `None`
for a missing key. -/
structure Entry where
  title : Option String
  web_link : Option String
  date : String
deriving DecidableEq

/-- Python's `l[-n:]`: the last `n` elements of a list (all of it when it is
shorter than `n`). -/
def takeLast {α : Type} (l : List α) (n : Nat) : List α :=
  l.drop (l.length - n)

/-- The observable pipeline stages of one run of either script's main block. -/
inductive PipelineAction where
  | fetch
  | generate
  | publish
deriving DecidableEq

/-- The dictionary returned by `fetch_content` (keys `type`, `title`, `link`,
`full_text`, `image_url`); `image_url` may be `None` in `plan.py`. -/
structure ContentItem where
  typ : String
  title : String
  link : String
  full_text : String
  image_url : Option String
deriving DecidableEq

/-- The environment outcomes of one attempt of a main loop: what
`fetch_content` returned, what `generate_viral_post` returned, and whether
`post_to_linkedin` reported success. -/
structure Step where
  content : Option ContentItem
  gen_text : Option String
  publish_ok : Bool
deriving DecidableEq

/-- The observable result of one main-block run: whether the credential check
exited the process before doing any work, the pipeline actions performed in
order, the final in-memory history list, the content written to
`history.json` (`none` means the file was never rewritten), and whether a
post was published. -/
structure MainResult where
  exited_early : Bool
  actions : List PipelineAction
  history : List Entry
  file_write : Option (List Entry)
  posted : Bool
deriving DecidableEq

/-- Whether `m` is a prefix of `s`, on character lists. -/
def prefixOfL : List Char → List Char → Bool
  | [], _ => true
  | _ :: _, [] => false
  | a :: as, b :: bs => a == b && prefixOfL as bs

/-- Whether `m` occurs contiguously inside `s`, on character lists. -/
def infixOfL (m : List Char) : List Char → Bool
  | [] => m.isEmpty
  | s@(_ :: bs) => prefixOfL m s || infixOfL m bs

/-- Python's `marker in src.lower()` for an already-lowercase `marker`:
`src` is lowercased character-wise and scanned for `marker`. -/
def contains_marker (src marker : String) : Bool :=
  infixOfL marker.toList (src.toList.map Char.toLower)

/-- Python's `s.startswith(pre)`, on character lists. -/
def startsWithL (pre s : String) : Bool :=
  prefixOfL pre.toList s.toList

/-- One step of `random.shuffle`: the in-place swap `x[i], x[j] = x[j], x[i]`
(identity when an index is out of range, which the shuffle never produces). -/
def swapL {α : Type} (l : List α) (i j : Nat) : List α :=
  match l[i]?, l[j]? with
  | some a, some b => (l.set i b).set j a
  | _, _ => l

/-- The descending loop of `random.shuffle` (Fisher-Yates): at position `i+1`
swap with a randomly drawn index `r % (i+2)` at or below it, then continue at
`i`; `rs` is the stream of random draws. -/
def fyAux {α : Type} : List α → Nat → List Nat → List α
  | l, 0, _ => l
  | l, _ + 1, [] => l
  | l, i + 1, r :: rs => fyAux (swapL l (i + 1) (r % (i + 2))) i rs

/-- Python's `random.shuffle(l)` driven by the random draws `rs`. -/
def fisherYates {α : Type} (l : List α) (rs : List Nat) : List α :=
  fyAux l (l.length - 1) rs

/-- Modelled from the spec: the excluded substrings named by the image-cascade
requirement, "logo/icon/avatar/tracking". -/
def SPEC_EXCLUDED_MARKERS : List String := ["logo", "icon", "avatar", "tracking"]

namespace Plan

/-- Value of `NEWS_FEEDS` in plan.py. -/
def NEWS_FEEDS : List String := [
  "https://feeds.feedburner.com/TheHackersNews",
  "https://techcrunch.com/feed/",
  "https://www.theverge.com/rss/index.xml",
  "https://openai.com/blog/rss/"
]

/-- Value of `ENGINEERING_FEEDS` in plan.py. -/
def ENGINEERING_FEEDS : List String := [
  "https://netflixtechblog.com/feed",
  "https://eng.uber.com/feed/",
  "https://aws.amazon.com/blogs/architecture/feed/",
  "https://github.blog/feed/",
  "https://blog.bytebytego.com/feed",
  "https://martinfowler.com/feed.atom",
  "https://slack.engineering/feed/",
  "https://engineering.linkedin.com/blog.rss"
]

/-- Embeds `clean_url` (plan.py lines 66-69): everything from the first `?`
on is stripped; a URL without `?` is returned unchanged. -/
def clean_url (url : String) : String :=
  if url.toList.contains '?' then String.mk (url.toList.takeWhile (fun c => c != '?'))
  else url

/-- Embeds `is_already_posted` (plan.py lines 71-76): linear scan, true on a
normalized-link match or an exact-title match. -/
def is_already_posted (link title : String) (history_data : List Entry) : Bool :=
  let normalized_link := clean_url link
  history_data.any (fun entry =>
    entry.web_link == some normalized_link || entry.title == some title)

/-- The entry dictionary built by `save_history` from a (title, link, date)
triple. -/
def mkEntry (s : String × String × String) : Entry :=
  { title := some s.1, web_link := some (clean_url s.2.1), date := s.2.2 }

/-- Embeds `save_history` (plan.py lines 54-64).  First component: the
caller's list after the in-place `append` (the `history_data =
history_data[-200:]` slice rebinds only the local name, so the caller's list
is never truncated).  Second component: the list passed to `json.dump`,
i.e. the new content of `history.json`. -/
def save_history (history_data : List Entry) (title link date : String) :
    List Entry × List Entry :=
  let appended := history_data ++ [mkEntry (title, link, date)]
  let persisted :=
    if appended.length > 200 then appended.drop (appended.length - 200) else appended
  (appended, persisted)

/-- A sequence of `save_history` calls against the same in-memory list.
First component: the in-memory list afterwards; second component: the final
content of `history.json` (`none` when no call happened, so the file was
never rewritten). -/
def runSaves (h : List Entry) : List (String × String × String) → List Entry × Option (List Entry)
  | [] => (h, none)
  | s :: rest =>
    let sv := save_history h s.1 s.2.1 s.2.2
    let r := runSaves sv.1 rest
    (r.1, some (r.2.getD sv.2))

/-- Embeds `get_article_text` (plan.py lines 79-98) as a function of the
joined paragraph text extracted from the fetched document: the 600-character
quality gate, then truncation to 15000 characters. -/
def get_article_text (text : String) : Option String :=
  if text.length < 600 then none else some (text.take 15000)

/-- The state of the selected group's global feed list after `fetch_content`
ran (plan.py lines 100-106): `sources` aliases the global list and
`random.shuffle(sources)` permutes it in place. -/
def fetch_sources_after (mode : String) (rs : List Nat) : List String :=
  fisherYates (if mode = "CONCEPT" then ENGINEERING_FEEDS else NEWS_FEEDS) rs

/-- Embeds the main block of plan.py (lines 330-358) as a function of the
credential environment and the outcomes of its three pipeline calls.  The
source performs no credential validation, so `urn`, `token` and `key` do not
affect control flow before the publish call. -/
def main_run (urn token key : String) (h : List Entry) (c : Option ContentItem)
    (p : Option String) (publish_ok : Bool) (date : String) : MainResult :=
  match c with
  | none => ⟨false, [PipelineAction.fetch], h, none, false⟩
  | some ci =>
    match p with
    | none => ⟨false, [PipelineAction.fetch, PipelineAction.generate], h, none, false⟩
    | some _ =>
      if publish_ok then
        let sv := save_history h ci.title ci.link date
        ⟨false, [PipelineAction.fetch, PipelineAction.generate, PipelineAction.publish], sv.1, some sv.2, true⟩
      else
        ⟨false, [PipelineAction.fetch, PipelineAction.generate, PipelineAction.publish], h, none, false⟩

/-- Result of plan.py's `post_to_linkedin`: the share body that was posted
and whether LinkedIn answered 201. -/
structure PostResult where
  share_media_category : String
  media : List String
  posted : Bool
  success : Bool
deriving DecidableEq

/-- Embeds `post_to_linkedin` (plan.py lines 286-327).  `reg_asset` is the
asset from a 200 register-upload response (`none` on a non-200 status or an
exception).  The binary-upload PUT's status (`upload_status`) is never
inspected by the source, and an exception raised by the PUT is swallowed by
the surrounding bare `except` after `asset` was already assigned, so the
upload step cannot unset `asset`.  The text post itself is always issued. -/
def post_to_linkedin (image_url : Option String) (reg_asset : Option String)
    (upload_status : Nat) (final_status : Nat) : PostResult :=
  let asset : Option String :=
    match image_url with
    | none => none
    | some _ => reg_asset
  { share_media_category := match asset with | some _ => "IMAGE" | none => "NONE"
    media := match asset with | some a => [a] | none => []
    posted := true
    success := final_status == 201 }

end Plan

namespace ViralBot

/-- Value of `FALLBACK_IMAGES` in viral_bot.py. -/
def FALLBACK_IMAGES : List String := [
  "https://images.unsplash.com/photo-1558494949-ef526b0042a0",
  "https://images.unsplash.com/photo-1518770660439-4636190af475",
  "https://images.unsplash.com/photo-1555099962-4199c345e5dd",
  "https://images.unsplash.com/photo-1531403009284-440f080d1e12",
  "https://images.unsplash.com/photo-1451187580459-43490279c0fa"
]

/-- Value of `NEWS_FEEDS` in viral_bot.py. -/
def NEWS_FEEDS : List String := [
  "https://feeds.feedburner.com/TheHackersNews",
  "https://techcrunch.com/feed/",
  "https://www.theverge.com/rss/index.xml"
]

/-- Value of `ENGINEERING_FEEDS` in viral_bot.py. -/
def ENGINEERING_FEEDS : List String := [
  "https://netflixtechblog.com/feed",
  "https://eng.uber.com/feed/",
  "https://aws.amazon.com/blogs/architecture/feed/",
  "https://blog.bytebytego.com/feed",
  "https://martinfowler.com/feed.atom",
  "https://slack.engineering/feed/",
  "https://engineering.fb.com/feed/",
  "https://shopify.engineering/blog/feed",
  "https://engineering.linkedin.com/blog.rss"
]

/-- Embeds the expression `link.split("?")[0]` used by viral_bot.py's
`save_history` (line 100) and `is_already_posted` (line 106): the prefix of
the link before the first `?`. -/
def clean_link (link : String) : String :=
  String.mk (link.toList.takeWhile (fun c => c != '?'))

/-- Embeds `is_already_posted` (viral_bot.py lines 105-109). -/
def is_already_posted (link title : String) (history_data : List Entry) : Bool :=
  let cl := clean_link link
  history_data.any (fun entry =>
    entry.web_link == some cl || entry.title == some title)

/-- The entry dictionary built by viral_bot.py's `save_history` from a
(title, link, date) triple. -/
def mkEntry (s : String × String × String) : Entry :=
  { title := some s.1, web_link := some (clean_link s.2.1), date := s.2.2 }

/-- Embeds `save_history` (viral_bot.py lines 99-103); components as in
`Plan.save_history`: caller's list after the in-place `append`, and the list
handed to `json.dump`. -/
def save_history (history_data : List Entry) (title link date : String) :
    List Entry × List Entry :=
  let appended := history_data ++ [mkEntry (title, link, date)]
  let persisted :=
    if appended.length > 200 then appended.drop (appended.length - 200) else appended
  (appended, persisted)

/-- A sequence of viral_bot.py `save_history` calls against the same
in-memory list; components as in `Plan.runSaves`. -/
def runSaves (h : List Entry) : List (String × String × String) → List Entry × Option (List Entry)
  | [] => (h, none)
  | s :: rest =>
    let sv := save_history h s.1 s.2.1 s.2.2
    let r := runSaves sv.1 rest
    (r.1, some (r.2.getD sv.2))

/-- An `img` element as read by the scraper: `src` is `""` when the attribute
is missing (matching `img.get('src', '')`), and `width`/`height` are the
parsed attribute values (`0` when missing or non-numeric, matching the
source's safe conversion). -/
structure Img where
  src : String
  width : Nat
  height : Nat
deriving DecidableEq

/-- The image-bearing parts of a fetched document as seen by
`get_article_details`: the `twitter:image` and `og:image` meta contents
(`none` when the tag or its attribute is absent), the `src` of each
hero-selector match that has a truthy `src` (in selector order), and every
`img` of the chosen body container in document order. -/
structure Doc where
  twitter_image : Option String
  og_image : Option String
  heros : List String
  imgs : List Img
deriving DecidableEq

/-- The substrings excluded by the Strategy 4 filter (viral_bot.py line 209). -/
def SKIP_MARKERS : List String := ["logo", "icon", "avatar", "pixel", "tracking", "1x1"]

/-- Strategies 1 and 2 (viral_bot.py lines 163-174): a meta tag's image is
used only when the tag exists and its content is truthy (non-empty). -/
def strat_meta (m : Option String) : Option String :=
  match m with
  | none => none
  | some c => if c = "" then none else some c

/-- The size filter of Strategy 4 (viral_bot.py line 207):
`w > 400 or h > 300 or (w == 0 and h == 0)`. -/
def size_ok (img : Img) : Bool :=
  img.width > 400 || img.height > 300 || (img.width == 0 && img.height == 0)

/-- Strategy 4 (viral_bot.py lines 192-212): the first image whose `src`
starts with `http`, passes the size filter, and whose lowercased `src`
contains none of the `SKIP_MARKERS`. -/
def find_large_image (imgs : List Img) : Option Img :=
  imgs.find? (fun img =>
    startsWithL "http" img.src && size_ok img &&
      !(SKIP_MARKERS.any (fun m => contains_marker img.src m)))

/-- Strategy 5 (viral_bot.py lines 214-221): the container's first `img`,
used only if its `src` is truthy and starts with `http`; no further images
are examined. -/
def first_image (imgs : List Img) : Option String :=
  match imgs.head? with
  | none => none
  | some img =>
    if img.src != "" && startsWithL "http" img.src then some img.src else none

/-- Strategies 1 to 5 of the image resolution cascade (viral_bot.py lines
160-221), in source order; each strategy runs only when all earlier ones
produced nothing. -/
def image_cascade (d : Doc) : Option String :=
  match strat_meta d.twitter_image with
  | some u => some u
  | none =>
    match strat_meta d.og_image with
    | some u => some u
    | none =>
      match d.heros.find? (fun s => startsWithL "http" s) with
      | some u => some u
      | none =>
        match find_large_image d.imgs with
        | some img => some img.src
        | none => first_image d.imgs

/-- The dictionary returned by `get_article_details`. -/
structure ArticleDetails where
  text : String
  image : String
deriving DecidableEq

/-- Embeds `get_article_details` (viral_bot.py lines 147-236) as a function
of the joined body text, the document's image candidates, the mode, and the
random draw `rand` that models `random.choice(FALLBACK_IMAGES)`. -/
def get_article_details (text : String) (d : Doc) (mode : String) (rand : Nat) :
    Option ArticleDetails :=
  if text.length < 600 then none
  else
    match image_cascade d with
    | some u => some ⟨text.take 12000, u⟩
    | none =>
      if mode = "CONCEPT" then
        some ⟨text.take 12000, FALLBACK_IMAGES.getD (rand % FALLBACK_IMAGES.length) ""⟩
      else none

/-- The state of the selected group's global feed list after `fetch_content`
ran (viral_bot.py lines 238-242): `sources` aliases the global list and
`random.shuffle(sources)` permutes it in place. -/
def fetch_sources_after (mode : String) (rs : List Nat) : List String :=
  fisherYates (if mode = "CONCEPT" then ENGINEERING_FEEDS else NEWS_FEEDS) rs

/-- Outcome of viral_bot.py's `post_to_linkedin`: either the attempt was
aborted before the text post was issued, or a post with the given share
category was issued and LinkedIn answered with success or not. -/
inductive VOutcome where
  | aborted
  | posted (share_media_category : String) (success : Bool)
deriving DecidableEq

/-- Embeds `post_to_linkedin` (viral_bot.py lines 380-454): a failed image
download, a register-upload status other than 200, or a binary-upload status
other than 201 each return `False` without ever issuing the text post; when
all three succeed the post is always an IMAGE share. -/
def post_to_linkedin (img_download_ok : Bool)
    (reg_status upload_status final_status : Nat) : VOutcome :=
  if !img_download_ok then VOutcome.aborted
  else if reg_status != 200 then VOutcome.aborted
  else if upload_status != 201 then VOutcome.aborted
  else VOutcome.posted "IMAGE" (final_status == 201)

/-- The credential check at the top of viral_bot.py's main block (lines
465-476): all three environment strings must be non-empty (a missing
environment variable loads as `""`). -/
def credentials_ok (urn token key : String) : Bool :=
  !(token == "") && !(urn == "") && !(key == "")

/-- Embeds the attempt loop of viral_bot.py's main block (lines 489-552) over
the per-attempt environment outcomes `steps`; the loop stops at the first
published post and `save_history` runs only then. -/
def attempt_loop (h : List Entry) (date : String) : List Step → MainResult
  | [] => ⟨false, [], h, none, false⟩
  | s :: rest =>
    match s.content with
    | none =>
      let r := attempt_loop h date rest
      ⟨false, PipelineAction.fetch :: r.actions, r.history, r.file_write, r.posted⟩
    | some ci =>
      match s.gen_text with
      | none =>
        let r := attempt_loop h date rest
        ⟨false, PipelineAction.fetch :: PipelineAction.generate :: r.actions,
          r.history, r.file_write, r.posted⟩
      | some _ =>
        if s.publish_ok then
          let sv := save_history h ci.title ci.link date
          ⟨false, [PipelineAction.fetch, PipelineAction.generate, PipelineAction.publish],
            sv.1, some sv.2, true⟩
        else
          let r := attempt_loop h date rest
          ⟨false, PipelineAction.fetch :: PipelineAction.generate ::
              PipelineAction.publish :: r.actions,
            r.history, r.file_write, r.posted⟩

/-- Whether one attempt's environment outcomes let it publish. -/
def step_success (s : Step) : Bool :=
  s.content.isSome && s.gen_text.isSome && s.publish_ok

/-- Embeds the main block of viral_bot.py (lines 457-561): the three
credential checks each `exit(1)` before any work, then the attempt loop
runs. -/
def main_run (urn token key : String) (h : List Entry) (date : String)
    (steps : List Step) : MainResult :=
  if token = "" then ⟨true, [], h, none, false⟩
  else if urn = "" then ⟨true, [], h, none, false⟩
  else if key = "" then ⟨true, [], h, none, false⟩
  else
    let r := attempt_loop h date steps
    ⟨false, r.actions, r.history, r.file_write, r.posted⟩

end ViralBot

/-- A 600-character body text, the minimum that passes the quality gate. -/
def text600 : String := String.mk (List.replicate 600 'a')

/-- A document with no image candidates at all. -/
def emptyDoc : ViralBot.Doc := ⟨none, none, [], []⟩

/-- A document with no meta or hero images whose first inline image is an
excluded logo (large enough for Strategy 4's size filter) and whose second
inline image is a non-excluded but small picture. -/
def logoDoc : ViralBot.Doc :=
  ⟨none, none, [],
   [⟨"http://a.com/logo.png", 500, 0⟩, ⟨"http://a.com/pic.png", 200, 100⟩]⟩

/-- A concrete content item for exercising the main-block models. -/
def cItem : ContentItem := ⟨"NEWS", "t", "https://x.com/a", "body", none⟩

theorem ite_drop_eq_takeLast {α : Type} (l : List α) :
    (if l.length > 200 then l.drop (l.length - 200) else l) = takeLast l 200 := by
  by_cases h : l.length > 200
  · simp [h, takeLast]
  · have h0 : l.length - 200 = 0 := by omega
    simp [h, takeLast, h0]

theorem takeLast_length_le {α : Type} (l : List α) (n : Nat) :
    (takeLast l n).length ≤ n := by
  simp [takeLast]
  omega

theorem plan_save_history_fst (h : List Entry) (t l d : String) :
    (Plan.save_history h t l d).1 = h ++ [Plan.mkEntry (t, l, d)] := rfl

theorem plan_save_history_snd (h : List Entry) (t l d : String) :
    (Plan.save_history h t l d).2 = takeLast (h ++ [Plan.mkEntry (t, l, d)]) 200 :=
  ite_drop_eq_takeLast _

theorem viral_save_history_fst (h : List Entry) (t l d : String) :
    (ViralBot.save_history h t l d).1 = h ++ [ViralBot.mkEntry (t, l, d)] := rfl

theorem viral_save_history_snd (h : List Entry) (t l d : String) :
    (ViralBot.save_history h t l d).2 = takeLast (h ++ [ViralBot.mkEntry (t, l, d)]) 200 :=
  ite_drop_eq_takeLast _

theorem plan_runSaves_spec (saves : List (String × String × String)) :
    ∀ h : List Entry,
      (Plan.runSaves h saves).1 = h ++ saves.map Plan.mkEntry ∧
      (saves ≠ [] →
        (Plan.runSaves h saves).2 = some (takeLast (h ++ saves.map Plan.mkEntry) 200)) := by
  induction saves with
  | nil => intro h; simp [Plan.runSaves]
  | cons s rest ih =>
    intro h
    have hfst : (Plan.save_history h s.1 s.2.1 s.2.2).1 = h ++ [Plan.mkEntry s] := rfl
    have hr := ih (h ++ [Plan.mkEntry s])
    constructor
    · show (Plan.runSaves (h ++ [Plan.mkEntry s]) rest).1 = _
      rw [hr.1]
      simp
    · intro _
      cases rest with
      | nil =>
        show some (Option.getD none (Plan.save_history h s.1 s.2.1 s.2.2).2) = _
        rw [Option.getD_none, plan_save_history_snd]
        simp
      | cons r rest' =>
        show some (Option.getD (Plan.runSaves (h ++ [Plan.mkEntry s]) (r :: rest')).2 _) = _
        rw [hr.2 (by simp)]
        simp

theorem viral_runSaves_spec (saves : List (String × String × String)) :
    ∀ h : List Entry,
      (ViralBot.runSaves h saves).1 = h ++ saves.map ViralBot.mkEntry ∧
      (saves ≠ [] →
        (ViralBot.runSaves h saves).2 =
          some (takeLast (h ++ saves.map ViralBot.mkEntry) 200)) := by
  induction saves with
  | nil => intro h; simp [ViralBot.runSaves]
  | cons s rest ih =>
    intro h
    have hr := ih (h ++ [ViralBot.mkEntry s])
    constructor
    · show (ViralBot.runSaves (h ++ [ViralBot.mkEntry s]) rest).1 = _
      rw [hr.1]
      simp
    · intro _
      cases rest with
      | nil =>
        show some (Option.getD none (ViralBot.save_history h s.1 s.2.1 s.2.2).2) = _
        rw [Option.getD_none, viral_save_history_snd]
        simp
      | cons r rest' =>
        show some (Option.getD (ViralBot.runSaves (h ++ [ViralBot.mkEntry s]) (r :: rest')).2 _) = _
        rw [hr.2 (by simp)]
        simp

theorem cons_set_perm {α : Type} :
    ∀ (l : List α) (m : Nat) (a b : α), l[m]? = some b →
      List.Perm (b :: l.set m a) (a :: l) := by
  intro l
  induction l with
  | nil => intro m a b h; simp at h
  | cons x xs ih =>
    intro m a b h
    cases m with
    | zero =>
      simp at h
      subst h
      exact List.Perm.swap a x xs
    | succ m =>
      simp at h
      have h1 : List.Perm (b :: x :: xs.set m a) (x :: b :: xs.set m a) :=
        List.Perm.swap x b _
      have h2 : List.Perm (x :: b :: xs.set m a) (x :: a :: xs) :=
        List.Perm.cons x (ih m a b h)
      have h3 : List.Perm (x :: a :: xs) (a :: x :: xs) := List.Perm.swap a x xs
      exact (h1.trans h2).trans h3

theorem set_set_perm {α : Type} :
    ∀ (l : List α) (i j : Nat) (a b : α),
      l[i]? = some a → l[j]? = some b →
      List.Perm ((l.set i b).set j a) l := by
  intro l
  induction l with
  | nil => intro i j a b hi _; simp at hi
  | cons x xs ih =>
    intro i j a b hi hj
    cases i with
    | zero =>
      simp at hi
      cases j with
      | zero =>
        simp at hj
        subst hi; subst hj
        exact List.Perm.refl _
      | succ n =>
        simp at hj
        subst hi
        exact cons_set_perm xs n x b hj
    | succ m =>
      simp at hi
      cases j with
      | zero =>
        simp at hj
        subst hj
        exact cons_set_perm xs m x a hi
      | succ n =>
        simp at hj
        exact List.Perm.cons x (ih m n a b hi hj)

theorem swapL_perm {α : Type} (l : List α) (i j : Nat) :
    List.Perm (swapL l i j) l := by
  unfold swapL
  split
  · next a b hi hj => exact set_set_perm l i j a b hi hj
  · exact List.Perm.refl l

theorem fyAux_perm {α : Type} :
    ∀ (i : Nat) (rs : List Nat) (l : List α), List.Perm (fyAux l i rs) l := by
  intro i
  induction i with
  | zero => intro rs l; exact List.Perm.refl l
  | succ i ih =>
    intro rs l
    cases rs with
    | nil => exact List.Perm.refl l
    | cons r rs' =>
      exact (ih rs' (swapL l (i + 1) (r % (i + 2)))).trans
        (swapL_perm l (i + 1) (r % (i + 2)))

theorem fisherYates_perm {α : Type} (l : List α) (rs : List Nat) :
    List.Perm (fisherYates l rs) l :=
  fyAux_perm (l.length - 1) rs l

theorem ViralBot.attempt_loop_write (steps : List Step) :
    ∀ (h : List Entry) (d : String),
      (ViralBot.attempt_loop h d steps).file_write.isSome =
        steps.any ViralBot.step_success := by
  induction steps with
  | nil => intro h d; rfl
  | cons s rest ih =>
    intro h d
    rcases s with ⟨c, g, p⟩
    cases c with
    | none => simpa [ViralBot.attempt_loop, ViralBot.step_success] using ih h d
    | some ci =>
      cases g with
      | none => simpa [ViralBot.attempt_loop, ViralBot.step_success] using ih h d
      | some t =>
        cases p with
        | false => simpa [ViralBot.attempt_loop, ViralBot.step_success] using ih h d
        | true => simp [ViralBot.attempt_loop, ViralBot.step_success]

theorem ViralBot.attempt_loop_hist (steps : List Step) :
    ∀ (h : List Entry) (d : String),
      steps.any ViralBot.step_success = false →
      (ViralBot.attempt_loop h d steps).history = h := by
  induction steps with
  | nil => intro h d _; rfl
  | cons s rest ih =>
    intro h d hany
    rcases s with ⟨c, g, p⟩
    simp [List.any_cons] at hany
    cases c with
    | none => simpa [ViralBot.attempt_loop] using ih h d (by simpa using hany.2)
    | some ci =>
      cases g with
      | none => simpa [ViralBot.attempt_loop] using ih h d (by simpa using hany.2)
      | some t =>
        cases p with
        | false => simpa [ViralBot.attempt_loop] using ih h d (by simpa using hany.2)
        | true => simp [ViralBot.step_success] at hany

theorem fallback_mem (rand : Nat) :
    ViralBot.FALLBACK_IMAGES.getD (rand % ViralBot.FALLBACK_IMAGES.length) ""
      ∈ ViralBot.FALLBACK_IMAGES := by
  have hlen : ViralBot.FALLBACK_IMAGES.length = 5 := rfl
  have h5 : rand % ViralBot.FALLBACK_IMAGES.length < 5 := by
    rw [hlen]; exact Nat.mod_lt _ (by omega)
  generalize rand % ViralBot.FALLBACK_IMAGES.length = k at h5
  interval_cases k <;> decide

/-- C1: for every history collection, `is_already_posted` (both revisions) is
true exactly when some stored entry's `web_link` equals the candidate's
query-string-stripped link or some stored entry's title exactly equals the
candidate title; in particular, after a link L is recorded by `save_history`,
any candidate formatting of L with the same query-string-stripped form is
reported as already posted. -/
theorem is_already_posted_contains_spec :
    (∀ (h : List Entry) (link title : String),
      Plan.is_already_posted link title h = true ↔
        ∃ e ∈ h, e.web_link = some (Plan.clean_url link) ∨ e.title = some title) ∧
    (∀ (h : List Entry) (link title : String),
      ViralBot.is_already_posted link title h = true ↔
        ∃ e ∈ h, e.web_link = some (ViralBot.clean_link link) ∨ e.title = some title) ∧
    (∀ (h : List Entry) (t L d cand ct : String),
      Plan.clean_url cand = Plan.clean_url L →
        Plan.is_already_posted cand ct ((Plan.save_history h t L d).1) = true) ∧
    (∀ (h : List Entry) (t L d cand ct : String),
      ViralBot.clean_link cand = ViralBot.clean_link L →
        ViralBot.is_already_posted cand ct ((ViralBot.save_history h t L d).1) = true) := by
  refine ⟨?_, ?_, ?_, ?_⟩
  · intro h link title
    simp [Plan.is_already_posted, List.any_eq_true]
  · intro h link title
    simp [ViralBot.is_already_posted, List.any_eq_true]
  · intro h t L d cand ct hc
    simp only [plan_save_history_fst, Plan.is_already_posted, List.any_eq_true]
    refine ⟨Plan.mkEntry (t, L, d), by simp, ?_⟩
    simp [Plan.mkEntry, hc]
  · intro h t L d cand ct hc
    simp only [viral_save_history_fst, ViralBot.is_already_posted, List.any_eq_true]
    refine ⟨ViralBot.mkEntry (t, L, d), by simp, ?_⟩
    simp [ViralBot.mkEntry, hc]

/-- Witness for C1: two formattings of the same URL differing only in their
query string are identified, so the second is reported as already posted
once the first has been saved. -/
theorem is_already_posted_contains_witness :
    Plan.clean_url "https://x.com/a?utm=1" = Plan.clean_url "https://x.com/a" ∧
    Plan.is_already_posted "https://x.com/a?utm=1" "other"
      ((Plan.save_history [] "t" "https://x.com/a" "2024-01-01").1) = true ∧
    ViralBot.is_already_posted "https://x.com/a?utm=1" "other"
      ((ViralBot.save_history [] "t" "https://x.com/a" "2024-01-01").1) = true :=
  ⟨by decide,
   is_already_posted_contains_spec.2.2.1 [] "t" "https://x.com/a" "2024-01-01"
     "https://x.com/a?utm=1" "other" (by decide),
   is_already_posted_contains_spec.2.2.2 [] "t" "https://x.com/a" "2024-01-01"
     "https://x.com/a?utm=1" "other" (by decide)⟩

/-- C2: whatever `history.json` content a sequence of `save_history` calls
leaves behind (either revision), it has at most 200 records and equals
exactly the most recent 200 of the initial records followed by the appended
ones, i.e. eviction is FIFO from the oldest end. -/
theorem history_cap_fifo :
    (∀ (h : List Entry) (saves : List (String × String × String)) (ps : List Entry),
      (Plan.runSaves h saves).2 = some ps →
        ps.length ≤ 200 ∧ ps = takeLast (h ++ saves.map Plan.mkEntry) 200) ∧
    (∀ (h : List Entry) (saves : List (String × String × String)) (ps : List Entry),
      (ViralBot.runSaves h saves).2 = some ps →
        ps.length ≤ 200 ∧ ps = takeLast (h ++ saves.map ViralBot.mkEntry) 200) := by
  constructor
  · intro h saves ps hps
    cases saves with
    | nil => simp [Plan.runSaves] at hps
    | cons s rest =>
      rw [(plan_runSaves_spec (s :: rest) h).2 (by simp)] at hps
      have hps' := Option.some.inj hps
      subst hps'
      exact ⟨takeLast_length_le _ _, rfl⟩
  · intro h saves ps hps
    cases saves with
    | nil => simp [ViralBot.runSaves] at hps
    | cons s rest =>
      rw [(viral_runSaves_spec (s :: rest) h).2 (by simp)] at hps
      have hps' := Option.some.inj hps
      subst hps'
      exact ⟨takeLast_length_le _ _, rfl⟩

/-- Witness for C2: a single save starting from an empty store persists one
record, within the cap and equal to the FIFO tail of the appended list. -/
theorem history_cap_fifo_witness :
    ([Plan.mkEntry ("t", "https://x.com/a?b=1", "2024-01-01")] : List Entry).length ≤ 200 ∧
    [Plan.mkEntry ("t", "https://x.com/a?b=1", "2024-01-01")] =
      takeLast ([] ++ [("t", "https://x.com/a?b=1", "2024-01-01")].map Plan.mkEntry) 200 :=
  history_cap_fifo.1 [] [("t", "https://x.com/a?b=1", "2024-01-01")]
    [Plan.mkEntry ("t", "https://x.com/a?b=1", "2024-01-01")] (by decide)

/-- C3: body text shorter than the 600-character minimum makes extraction
return null in both revisions (`get_article_text` in plan.py,
`get_article_details` in viral_bot.py); no truncated-but-accepted result is
possible. -/
theorem short_text_yields_none :
    ∀ (text : String) (d : ViralBot.Doc) (mode : String) (rand : Nat),
      text.length < 600 →
      Plan.get_article_text text = none ∧
      ViralBot.get_article_details text d mode rand = none := by
  intro text d mode rand h
  exact ⟨by simp [Plan.get_article_text, h],
         by simp [ViralBot.get_article_details, h]⟩

/-- Witness for C3: the empty body text is rejected by both revisions. -/
theorem short_text_yields_none_witness :
    ("" : String).length < 600 ∧
    Plan.get_article_text "" = none ∧
    ViralBot.get_article_details "" emptyDoc "NEWS" 0 = none :=
  ⟨by decide,
   (short_text_yields_none "" emptyDoc "NEWS" 0 (by decide)).1,
   (short_text_yields_none "" emptyDoc "NEWS" 0 (by decide)).2⟩

/-- C10: `save_history` (both revisions) changes the caller's in-memory list
only by appending exactly one record, so every previously loaded record is
retained in memory even beyond the cap; the 200-record truncation applies
only to the data written to the file. -/
theorem save_history_frame :
    ∀ (h : List Entry) (t l d : String),
      (Plan.save_history h t l d).1 = h ++ [Plan.mkEntry (t, l, d)] ∧
      (Plan.save_history h t l d).1.length = h.length + 1 ∧
      (Plan.save_history h t l d).2 = takeLast ((Plan.save_history h t l d).1) 200 ∧
      (ViralBot.save_history h t l d).1 = h ++ [ViralBot.mkEntry (t, l, d)] ∧
      (ViralBot.save_history h t l d).1.length = h.length + 1 ∧
      (ViralBot.save_history h t l d).2 = takeLast ((ViralBot.save_history h t l d).1) 200 := by
  intro h t l d
  refine ⟨plan_save_history_fst h t l d, ?_, ?_, viral_save_history_fst h t l d, ?_, ?_⟩
  · simp [plan_save_history_fst]
  · rw [plan_save_history_snd, plan_save_history_fst]
  · simp [viral_save_history_fst]
  · rw [viral_save_history_snd, viral_save_history_fst]

set_option maxRecDepth 20000 in
/-- Counterexample to C4 as stated: in `logoDoc` a non-excluded candidate
image (`pic.png`) exists, yet the cascade selects `logo.png`, whose URL
contains the excluded substring `logo` (the meta, hero and first-image
strategies apply no exclusion filter, and Strategy 4's size gate rejects the
non-excluded candidate, so Strategy 5 picks the document's first image). -/
theorem cascade_excluded_counterexample :
    logoDoc.imgs.any
      (fun i => !(SPEC_EXCLUDED_MARKERS.any (fun m => contains_marker i.src m))) = true ∧
    (ViralBot.get_article_details text600 logoDoc "NEWS" 0).map ViralBot.ArticleDetails.image
      = some "http://a.com/logo.png" ∧
    SPEC_EXCLUDED_MARKERS.any (fun m => contains_marker "http://a.com/logo.png" m) = true := by
  refine ⟨by decide, by decide, by decide⟩

/-- C4 as amended: only Strategy 4 (the large-inline-image scan) applies the
exclusion filter, and within that strategy a selected image never contains
any excluded substring (neither the source's marker list nor the spec's
logo/icon/avatar/tracking subset); the earlier meta-tag and hero strategies
and the final first-image fallback apply no such filter, so the cascade as a
whole can select an excluded URL even when a non-excluded candidate exists. -/
theorem find_large_image_excludes :
    ∀ (imgs : List ViralBot.Img) (img : ViralBot.Img),
      ViralBot.find_large_image imgs = some img →
      ViralBot.SKIP_MARKERS.any (fun m => contains_marker img.src m) = false ∧
      SPEC_EXCLUDED_MARKERS.any (fun m => contains_marker img.src m) = false := by
  intro imgs img h
  have hp := List.find?_some h
  simp only [Bool.and_eq_true, Bool.not_eq_true'] at hp
  obtain ⟨-, hskip⟩ := hp
  refine ⟨hskip, ?_⟩
  simp only [ViralBot.SKIP_MARKERS, List.any_cons, List.any_nil,
    Bool.or_eq_false_iff] at hskip
  simp only [SPEC_EXCLUDED_MARKERS, List.any_cons, List.any_nil,
    Bool.or_eq_false_iff]
  exact ⟨hskip.1, hskip.2.1, hskip.2.2.1, hskip.2.2.2.2.1, trivial⟩

/-- Witness for C4's amended theorem: a concrete large non-excluded image is
selected by Strategy 4 and indeed carries no excluded marker. -/
theorem find_large_image_excludes_witness :
    ViralBot.SKIP_MARKERS.any
      (fun m => contains_marker (ViralBot.Img.mk "http://a.com/pic.png" 500 0).src m) = false ∧
    SPEC_EXCLUDED_MARKERS.any
      (fun m => contains_marker (ViralBot.Img.mk "http://a.com/pic.png" 500 0).src m) = false :=
  find_large_image_excludes [ViralBot.Img.mk "http://a.com/pic.png" 500 0]
    (ViralBot.Img.mk "http://a.com/pic.png" 500 0) (by decide)

/-- C5: when strategies 1-5 of the image cascade find nothing and the body
text passed the quality gate, a CONCEPT-mode item receives a member of the
static fallback image pool, while an item of any other mode makes the whole
extraction return null — it is never returned without an image. -/
theorem concept_fallback_mandatory_image :
    ∀ (text : String) (d : ViralBot.Doc) (mode : String) (rand : Nat),
      600 ≤ text.length → ViralBot.image_cascade d = none →
      (mode = "CONCEPT" →
        ViralBot.get_article_details text d mode rand =
          some ⟨text.take 12000,
                ViralBot.FALLBACK_IMAGES.getD (rand % ViralBot.FALLBACK_IMAGES.length) ""⟩ ∧
        ViralBot.FALLBACK_IMAGES.getD (rand % ViralBot.FALLBACK_IMAGES.length) ""
          ∈ ViralBot.FALLBACK_IMAGES) ∧
      (mode ≠ "CONCEPT" → ViralBot.get_article_details text d mode rand = none) := by
  intro text d mode rand hlen hcasc
  have hnot : ¬ text.length < 600 := by omega
  constructor
  · intro hm
    exact ⟨by simp [ViralBot.get_article_details, hnot, hcasc, hm], fallback_mem rand⟩
  · intro hm
    simp [ViralBot.get_article_details, hnot, hcasc, hm]

set_option maxRecDepth 20000 in
/-- Witness for C5: with no image candidates at all, a CONCEPT item gets the
fallback image selected by the random draw and a NEWS item is discarded. -/
theorem concept_fallback_mandatory_image_witness :
    (600 ≤ text600.length ∧ ViralBot.image_cascade emptyDoc = none) ∧
    ViralBot.get_article_details text600 emptyDoc "CONCEPT" 0 =
      some ⟨text600.take 12000,
            ViralBot.FALLBACK_IMAGES.getD (0 % ViralBot.FALLBACK_IMAGES.length) ""⟩ ∧
    ViralBot.get_article_details text600 emptyDoc "NEWS" 0 = none :=
  ⟨⟨by decide, by decide⟩,
   ((concept_fallback_mandatory_image text600 emptyDoc "CONCEPT" 0
       (by decide) (by decide)).1 rfl).1,
   (concept_fallback_mandatory_image text600 emptyDoc "NEWS" 0
       (by decide) (by decide)).2 (by decide)⟩

/-- C6: in both revisions' main blocks, `history.json` is rewritten exactly
when fetching, generation and the publish call all succeeded (for
viral_bot.py, additionally only when the credential check passed); whenever
no write happens — publish failure or any earlier failure — the in-memory
history is also left exactly as loaded. -/
theorem persist_only_on_publish_success :
    (∀ (urn token key : String) (h : List Entry) (c : Option ContentItem)
        (p : Option String) (ok : Bool) (d : String),
      (Plan.main_run urn token key h c p ok d).file_write.isSome =
        (c.isSome && p.isSome && ok) ∧
      ((Plan.main_run urn token key h c p ok d).file_write = none →
        (Plan.main_run urn token key h c p ok d).history = h)) ∧
    (∀ (urn token key : String) (h : List Entry) (d : String) (steps : List Step),
      (ViralBot.main_run urn token key h d steps).file_write.isSome =
        (ViralBot.credentials_ok urn token key && steps.any ViralBot.step_success) ∧
      ((ViralBot.main_run urn token key h d steps).file_write = none →
        (ViralBot.main_run urn token key h d steps).history = h)) := by
  constructor
  · intro urn token key h c p ok d
    cases c with
    | none => simp [Plan.main_run]
    | some ci =>
      cases p with
      | none => simp [Plan.main_run]
      | some t =>
        cases ok with
        | false => simp [Plan.main_run]
        | true => simp [Plan.main_run]
  · intro urn token key h d steps
    by_cases ht : token = ""
    · simp [ViralBot.main_run, ViralBot.credentials_ok, ht]
    · by_cases hu : urn = ""
      · simp [ViralBot.main_run, ViralBot.credentials_ok, ht, hu]
      · by_cases hk : key = ""
        · simp [ViralBot.main_run, ViralBot.credentials_ok, ht, hu, hk]
        · have hco : ViralBot.credentials_ok urn token key = true := by
            simp [ViralBot.credentials_ok, ht, hu, hk]
          constructor
          · simp only [ViralBot.main_run, if_neg ht, if_neg hu, if_neg hk, hco,
              Bool.true_and]
            exact ViralBot.attempt_loop_write steps h d
          · intro hw
            simp only [ViralBot.main_run, if_neg ht, if_neg hu, if_neg hk] at hw ⊢
            have hall : steps.any ViralBot.step_success = false := by
              rw [← ViralBot.attempt_loop_write steps h d, hw]
              rfl
            exact ViralBot.attempt_loop_hist steps h d hall

/-- Witness for C6: a run whose publish call fails leaves the loaded history
untouched in both revisions. -/
theorem persist_only_on_publish_success_witness :
    (Plan.main_run "u" "t" "k" [] (some cItem) (some "post") false "d").history = [] ∧
    (ViralBot.main_run "u" "t" "k" [] "d" [⟨some cItem, some "post", false⟩]).history = [] :=
  ⟨(persist_only_on_publish_success.1 "u" "t" "k" [] (some cItem) (some "post") false "d").2
     (by decide),
   (persist_only_on_publish_success.2 "u" "t" "k" [] "d"
     [⟨some cItem, some "post", false⟩]).2 (by decide)⟩

/-- Counterexample to C7 as stated: with every credential missing (all three
environment strings empty), plan.py's main block does not exit early — its
first pipeline action is still the content fetch, so work is done before any
credential is ever needed. -/
theorem plan_missing_credentials_counterexample :
    (Plan.main_run "" "" "" [] none none false "d").exited_early = false ∧
    (Plan.main_run "" "" "" [] none none false "d").actions = [PipelineAction.fetch] :=
  ⟨rfl, rfl⟩

/-- C7 as amended: only viral_bot.py validates credentials; there, a missing
LinkedIn URN, LinkedIn token or Gemini key makes the process exit
immediately, before any fetch, generation, publish or history write.
plan.py performs no credential validation and proceeds regardless. -/
theorem viralbot_missing_credentials_exit :
    ∀ (urn token key : String) (h : List Entry) (d : String) (steps : List Step),
      (token = "" ∨ urn = "" ∨ key = "") →
      (ViralBot.main_run urn token key h d steps).exited_early = true ∧
      (ViralBot.main_run urn token key h d steps).actions = [] ∧
      (ViralBot.main_run urn token key h d steps).file_write = none ∧
      (ViralBot.main_run urn token key h d steps).posted = false := by
  intro urn token key h d steps hmiss
  by_cases ht : token = ""
  · simp [ViralBot.main_run, ht]
  · by_cases hu : urn = ""
    · simp [ViralBot.main_run, ht, hu]
    · by_cases hk : key = ""
      · simp [ViralBot.main_run, ht, hu, hk]
      · rcases hmiss with hm | hm | hm
        · exact absurd hm ht
        · exact absurd hm hu
        · exact absurd hm hk

/-- Witness for C7's amended theorem: an empty LinkedIn token makes
viral_bot.py exit before performing any action. -/
theorem viralbot_missing_credentials_exit_witness :
    (ViralBot.main_run "x" "" "y" [] "d" []).exited_early = true ∧
    (ViralBot.main_run "x" "" "y" [] "d" []).actions = [] ∧
    (ViralBot.main_run "x" "" "y" [] "d" []).file_write = none ∧
    (ViralBot.main_run "x" "" "y" [] "d" []).posted = false :=
  viralbot_missing_credentials_exit "x" "" "y" [] "d" [] (Or.inl rfl)

/-- Counterexample to C8 as stated: in viral_bot.py a register-upload failure
(status 404) or a binary-upload failure (status 500) aborts the whole post
attempt — no text-only post is issued; and in plan.py a binary-upload
failure is simply ignored, the post still referencing the registered asset
as an IMAGE share rather than degrading to text-only. -/
theorem image_handshake_counterexample :
    ViralBot.post_to_linkedin true 404 201 201 = ViralBot.VOutcome.aborted ∧
    ViralBot.post_to_linkedin true 200 500 201 = ViralBot.VOutcome.aborted ∧
    (Plan.post_to_linkedin (some "http://img") (some "asset") 500 201).share_media_category
      = "IMAGE" :=
  ⟨rfl, rfl, rfl⟩

/-- C8 as amended: in plan.py a register-step failure degrades the post to
text-only (category NONE, empty media, still posted), while the binary
upload's status is ignored outright (the share stays IMAGE whatever it was);
in viral_bot.py a register status other than 200 or an upload status other
than 201 aborts the attempt entirely instead of degrading. -/
theorem image_handshake_degradation :
    (∀ (u : String) (us fs : Nat),
      (Plan.post_to_linkedin (some u) none us fs).posted = true ∧
      (Plan.post_to_linkedin (some u) none us fs).share_media_category = "NONE" ∧
      (Plan.post_to_linkedin (some u) none us fs).media = []) ∧
    (∀ (u a : String) (us fs : Nat),
      (Plan.post_to_linkedin (some u) (some a) us fs).share_media_category = "IMAGE") ∧
    (∀ rs us fs : Nat, rs ≠ 200 →
      ViralBot.post_to_linkedin true rs us fs = ViralBot.VOutcome.aborted) ∧
    (∀ us fs : Nat, us ≠ 201 →
      ViralBot.post_to_linkedin true 200 us fs = ViralBot.VOutcome.aborted) := by
  refine ⟨?_, ?_, ?_, ?_⟩
  · intro u us fs; exact ⟨rfl, rfl, rfl⟩
  · intro u a us fs; rfl
  · intro rs us fs hrs
    simp [ViralBot.post_to_linkedin, hrs]
  · intro us fs hus
    simp [ViralBot.post_to_linkedin, hus]

/-- Witness for C8's amended theorem at concrete statuses. -/
theorem image_handshake_degradation_witness :
    (Plan.post_to_linkedin (some "http://img") none 500 201).share_media_category = "NONE" ∧
    ViralBot.post_to_linkedin true 500 201 201 = ViralBot.VOutcome.aborted ∧
    ViralBot.post_to_linkedin true 200 418 201 = ViralBot.VOutcome.aborted :=
  ⟨(image_handshake_degradation.1 "http://img" 500 201).2.1,
   image_handshake_degradation.2.2.1 500 201 201 (by decide),
   image_handshake_degradation.2.2.2 418 201 (by decide)⟩

/-- Counterexample to C9 as stated: `fetch_content` does modify the
configured source list — with random draws [0,0,0] the in-place
`random.shuffle` leaves plan.py's NEWS feed list in a different order than
configured. -/
theorem shuffle_mutates_counterexample :
    Plan.fetch_sources_after "NEWS" [0, 0, 0] ≠ Plan.NEWS_FEEDS := by decide

/-- C9 as amended: `fetch_content` (both revisions) permutes the selected
group's configured source list in place, so the list's order can change
during a run; membership is nevertheless preserved — after any shuffle the
list is a permutation of the configured one, with no URL added or removed. -/
theorem shuffle_preserves_sources :
    ∀ (mode : String) (rs : List Nat),
      List.Perm (Plan.fetch_sources_after mode rs)
        (if mode = "CONCEPT" then Plan.ENGINEERING_FEEDS else Plan.NEWS_FEEDS) ∧
      List.Perm (ViralBot.fetch_sources_after mode rs)
        (if mode = "CONCEPT" then ViralBot.ENGINEERING_FEEDS else ViralBot.NEWS_FEEDS) :=
  fun _ rs => ⟨fisherYates_perm _ rs, fisherYates_perm _ rs⟩
